import Mathlib

/-!
Verification of the quiz web application in `app.py`.

The application turns a topic string or an uploaded document into a
multiple-choice quiz: a generation service returns semi-structured text,
a hand-rolled parser converts it into question records, a per-user
session holds the quiz across requests, submission grades the answers,
and PDFs are rendered for results and study notes.

This development shallowly embeds the relevant Python code.  Python
strings are modelled as `List Char` (Python indexes and slices strings
by code point, exactly as `List Char` does), and the handful of string
primitives the code uses (`strip`, `split`, `replace`, `upper`, `ord`,
slicing, list indexing with negative-index wrap-around) are given
executable Lean counterparts with the same semantics, including the
exceptions Python raises (`TypeError` from `ord` on a non-single-character
string, `IndexError` from out-of-range list subscripts).  Fallible code
is `Except String`-valued: a `.error` value marks an uncaught Python
exception escaping the request handler.
-/

namespace QuizApp

/-! ## Python string primitives over `List Char` -/

/-- The characters removed by Python's `str.strip()` with no argument. -/
def pyIsSpace (c : Char) : Bool :=
  c == ' ' || c == '\t' || c == '\n' || c == '\r' || c == '\x0b' || c == '\x0c'

/-- Python `str.strip()`: drop leading and trailing whitespace. -/
def pyStrip (s : List Char) : List Char :=
  ((s.dropWhile pyIsSpace).reverse.dropWhile pyIsSpace).reverse

/-- `leadsWith pat s` is true when `pat` occurs at the start of `s`. -/
def leadsWith : List Char → List Char → Bool
  | [], _ => true
  | _ :: _, [] => false
  | p :: ps, c :: cs => p == c && leadsWith ps cs

/-- Worker for `pySplit`; `fuel` starts at the length of the string, which
bounds the number of scanning steps, so the `0` case is unreachable from
`pySplit` whenever `sep` is non-empty. -/
def pySplitGo (sep : List Char) : Nat → List Char → List Char → List (List Char)
  | _, [], acc => [acc.reverse]
  | 0, rest, acc => [acc.reverse ++ rest]
  | fuel + 1, c :: rest, acc =>
    if leadsWith sep (c :: rest) then
      acc.reverse :: pySplitGo sep fuel (List.drop sep.length (c :: rest)) []
    else
      pySplitGo sep fuel rest (c :: acc)

/-- Python `s.split(sep)` for a non-empty separator: non-overlapping
left-to-right splitting on the literal separator. -/
def pySplit (s sep : List Char) : List (List Char) :=
  if sep = [] then [s] else pySplitGo sep s.length s []

/-- Worker for `pyReplace`, same fuel discipline as `pySplitGo`. -/
def pyReplaceGo (pat repl : List Char) : Nat → List Char → List Char
  | _, [] => []
  | 0, rest => rest
  | fuel + 1, c :: rest =>
    if leadsWith pat (c :: rest) then
      repl ++ pyReplaceGo pat repl fuel (List.drop pat.length (c :: rest))
    else
      c :: pyReplaceGo pat repl fuel rest

/-- Python `s.replace(pat, repl)` for a non-empty pattern: replace all
non-overlapping occurrences left to right. -/
def pyReplace (s pat repl : List Char) : List Char :=
  if pat = [] then s else pyReplaceGo pat repl s.length s

/-- Python `str.upper()` (the code only ever feeds it ASCII). -/
def pyUpper (s : List Char) : List Char := s.map Char.toUpper

/-- Python `ord(s)`: the code point of a one-character string, `TypeError`
otherwise. -/
def pyOrd : List Char → Except String Int
  | [c] => .ok (c.toNat : Int)
  | _ => .error "TypeError: ord() expected a character"

/-- Python list subscription `xs[i]` with an `int` index: negative indices
count from the end; anything out of range raises `IndexError`. -/
def pyListIndex {α : Type} (xs : List α) (i : Int) : Except String α :=
  let j : Int := if i < 0 then i + xs.length else i
  if 0 ≤ j then
    match xs.get? j.toNat with
    | some x => .ok x
    | none => .error "IndexError: list index out of range"
  else
    .error "IndexError: list index out of range"

/-! ## The MCQ parser (`app.py`, `generate`, lines 258-286)

```python
questions = []
for mcq in mcqs.split("## MCQ"):
    if not mcq.strip():
        continue
    lines = [line.strip() for line in mcq.split('\n') if line.strip()]
    if len(lines) < 6:
        continue
    question = lines[0].replace("Question:", "").strip()
    options = [lines[1][3:].strip(), lines[2][3:].strip(),
               lines[3][3:].strip(), lines[4][3:].strip()]
    correct_answer = lines[5].replace("Correct Answer:", "").strip()
    questions.append({'question': question, 'options': options,
        'correct_answer': options[ord(correct_answer.upper()) - 65]})
```
-/

instance {ε α : Type} [DecidableEq ε] [DecidableEq α] : DecidableEq (Except ε α) := fun a b =>
  match a, b with
  | .ok x, .ok y => decidable_of_iff (x = y) (by simp)
  | .error e, .error f => decidable_of_iff (e = f) (by simp)
  | .ok _, .error _ => isFalse (by simp)
  | .error _, .ok _ => isFalse (by simp)

/-- A parsed question record: prompt text, the four option texts, and the
correct answer stored as the option's text. -/
structure Question where
  question : String
  options : List String
  correct_answer : String
deriving Repr, DecidableEq

/-- `lines` of one block: split on newline, strip each line, keep the
non-empty ones (Python `[line.strip() for line in mcq.split('\n') if line.strip()]`). -/
def linesOf (mcq : List Char) : List (List Char) :=
  ((pySplit mcq ['\n']).map pyStrip).filter (fun l => l ≠ [])

/-- The per-block line processing: fewer than 6 lines is skipped (`.ok none`);
otherwise line 0 is the question, lines 1-4 the options with their first
three characters sliced off (`lines[k][3:]`), line 5 the correct-answer
letter, which is turned into a list index by `ord(letter.upper()) - 65`. -/
def parseLines : List (List Char) → Except String (Option Question)
  | l0 :: l1 :: l2 :: l3 :: l4 :: l5 :: _ =>
    let question := pyStrip (pyReplace l0 ("Question:".data) [])
    let options := [pyStrip (l1.drop 3), pyStrip (l2.drop 3),
                    pyStrip (l3.drop 3), pyStrip (l4.drop 3)]
    let correct_answer := pyStrip (pyReplace l5 ("Correct Answer:".data) [])
    match pyOrd (pyUpper correct_answer) with
    | .error e => .error e
    | .ok n =>
      match pyListIndex options (n - 65) with
      | .error e => .error e
      | .ok ca =>
        .ok (some { question := ⟨question⟩,
                    options := options.map (fun o => (⟨o⟩ : String)),
                    correct_answer := ⟨ca⟩ })
  | _ => .ok none

/-- One loop iteration: an all-whitespace block is skipped before the
line computation (`if not mcq.strip(): continue`). -/
def parseBlock (mcq : List Char) : Except String (Option Question) :=
  if pyStrip mcq = [] then .ok none else parseLines (linesOf mcq)

/-- The whole loop over the blocks produced by `mcqs.split("## MCQ")`.
An exception in any iteration aborts the request, so errors propagate. -/
def parseBlocks : List (List Char) → Except String (List Question)
  | [] => .ok []
  | b :: bs =>
    match parseBlock b with
    | .error e => .error e
    | .ok none => parseBlocks bs
    | .ok (some q) =>
      match parseBlocks bs with
      | .error e => .error e
      | .ok qs => .ok (q :: qs)

/-- The parsing stage of `generate`: split the raw service text on the
literal `"## MCQ"` delimiter and process each block. -/
def parse_mcqs (mcqs : String) : Except String (List Question) :=
  parseBlocks (pySplit mcqs.data ("## MCQ".data))

/-! ## Session state and the request handlers

Flask's server-side session is a per-user key/value store.  The keys the
application ever writes are `questions`, `current_file`,
`original_input_text`, `user_answers`, `score`, `total` and
`current_notes_file`; `none` models an absent key and `session.clear()`
empties the store.  (`current_notes_file` can also be set to Python
`None` by the scoreboard route, hence the nested option.) -/

/-- A graded answer as appended to `user_answers` in the `quiz` POST handler. -/
structure AnsweredQuestion where
  question : String
  options : List String
  correct_answer : String
  user_answer : String
  is_correct : Bool
  explanation : String
deriving Repr, DecidableEq

/-- The per-user session store. -/
structure Session where
  questions : Option (List Question) := none
  current_file : Option String := none
  original_input_text : Option String := none
  user_answers : Option (List AnsweredQuestion) := none
  score : Option Nat := none
  total : Option Nat := none
  current_notes_file : Option (Option String) := none
deriving Repr, DecidableEq

/-- The cleared session: every key absent. -/
def Session.empty : Session := {}

/-- An uploaded file as the `generate` handler sees it: its client-supplied
name and the outcome of `extract_text_from_file` on the saved copy
(`none` models extraction failure; extraction is an external collaborator,
so its outcome is an input of the embedding).  A request with no usable
file part (no file field, or an empty filename) is modelled as the `file`
form field being `none`, matching `if not file` in the handler. -/
structure UploadedFile where
  filename : String
  extracted : Option String
deriving Repr, DecidableEq

/-- The POST form of `/generate`. -/
structure GenForm where
  file : Option UploadedFile
  topic : Option String
  difficulty : Option String
  num_questions : Option String
deriving Repr, DecidableEq

/-- `allowed_file` (`app.py` line 32): requires a dot and an allowed
extension after the last dot, lowercased. -/
def allowed_file (filename : String) : Bool :=
  filename.data.contains '.' &&
    (let ext := ((pySplit filename.data ['.']).getLastD []).map Char.toLower
     ext == "pdf".data || ext == "txt".data || ext == "doc".data || ext == "docx".data)

/-- Python `int(s)` as used on the `num_questions` field: optional
whitespace, optional sign, decimal digits.  (Underscore digit grouping,
which Python also accepts, is not modelled; no claim depends on it.)
There is no positivity check anywhere in the handler. -/
def pyParseInt (s : String) : Option Int :=
  match pyStrip s.data with
  | [] => none
  | '-' :: ds =>
    if ds.isEmpty then none
    else if ds.all Char.isDigit then some (-(ds.foldl (fun a c => a * 10 + (c.toNat - 48)) 0 : Nat))
    else none
  | '+' :: ds =>
    if ds.isEmpty then none
    else if ds.all Char.isDigit then some (ds.foldl (fun a c => a * 10 + (c.toNat - 48)) 0 : Nat)
    else none
  | ds =>
    if ds.all Char.isDigit then some (ds.foldl (fun a c => a * 10 + (c.toNat - 48)) 0 : Nat)
    else none

/-- The keys of the `difficulty_prompts` dict in `generate_mcqs`; any other
difficulty value raises an uncaught `KeyError` while building the prompt. -/
def difficulty_keys : List String := ["easy", "intermediate", "hard"]

/-- `generate_mcqs` (lines 89-159), with the external service call
abstracted by `svc`: `some text` is a successful `model.generate_content`
response, `none` a service exception (caught, returning Python `None`).
The prompt construction itself raises `KeyError` on an unknown difficulty
before the `try` block is reached. -/
def generate_mcqs (difficulty : String) (svc : Option String) : Except String (Option String) :=
  if difficulty ∈ difficulty_keys then .ok svc else .error "KeyError: difficulty"

/-- The observable outcome of the `/generate` handler. -/
inductive GenResult where
  | errorMsg (msg : String)
  | redirectQuiz
deriving Repr, DecidableEq

/-- The tail of the `generate` handler after `input_data` is established
(lines 249-294): call the service, bail out with a message if it returns
a falsy value, parse, bail out if no block parsed, otherwise store the
questions (and, for file input, the extracted text) and redirect. -/
def afterInput (s : Session) (content : String) (is_file : Bool) (difficulty : String)
    (svc : Option String) : Except String (GenResult × Session) :=
  match generate_mcqs difficulty svc with
  | .error e => .error e
  | .ok none => .ok (.errorMsg "Failed to generate MCQs. Please try again.", s)
  | .ok (some mcqs) =>
    if mcqs = "" then .ok (.errorMsg "Failed to generate MCQs. Please try again.", s)
    else
      match parse_mcqs mcqs with
      | .error e => .error e
      | .ok [] => .ok (.errorMsg "No valid questions could be generated. Please try again.", s)
      | .ok questions =>
        .ok (.redirectQuiz,
          if is_file then
            { s with questions := some questions, original_input_text := some content }
          else
            { s with questions := some questions })

/-- The `/generate` POST handler (lines 174-294).  It begins with
`session.clear()`, so the prior session `_s0` is discarded unconditionally.
`timestamp` is `int(time.time())` at the moment the upload is saved;
`werkzeug.secure_filename` is an external sanitizer modelled as the
identity (the claims do not depend on its transformation). -/
def generate (form : GenForm) (svc : Option String) (timestamp : Nat) (_s0 : Session) :
    Except String (GenResult × Session) :=
  match form.num_questions with
  | none => .error "BadRequestKeyError: num_questions"
  | some nq =>
    match pyParseInt nq with
    | none => .ok (.errorMsg "Please enter a valid number of questions.", Session.empty)
    | some _num_questions =>
      match form.file with
      | none =>
        match form.topic with
        | some topic =>
          if topic ≠ "" then
            afterInput Session.empty topic false ((form.difficulty).getD "easy") svc
          else
            .ok (.errorMsg "Please provide either a file or a topic.", Session.empty)
        | none => .ok (.errorMsg "Please provide either a file or a topic.", Session.empty)
      | some f =>
        if allowed_file f.filename then
          match f.extracted with
          | some content =>
            if content ≠ "" then
              afterInput
                { Session.empty with
                  current_file := some ("uploads/" ++ toString timestamp ++ "_" ++ f.filename) }
                content true ((form.difficulty).getD "easy") svc
            else
              .ok (.errorMsg "Error: Could not extract text from the uploaded file. Please try again.",
                   Session.empty)
          | none =>
            .ok (.errorMsg "Error: Could not extract text from the uploaded file. Please try again.",
                 Session.empty)
        else
          .ok (.errorMsg "Please provide either a file or a topic.", Session.empty)

/-- The `/` handler (lines 161-166): clears the session only when the
query string carries `clear=true`. -/
def index_route (clearParam : Option String) (s : Session) : Session :=
  if clearParam = some "true" then Session.empty else s

/-- The `/home` handler (lines 168-172): always clears the session. -/
def home_route (_s : Session) : Session := Session.empty

/-- The observable outcome of the `/quiz` handlers. -/
inductive QuizResult where
  | redirectIndex
  | renderQuiz (questions : List Question)
  | renderScoreboard (user_answers : List AnsweredQuestion) (score : Nat) (total : Nat)
deriving Repr, DecidableEq

/-- The submitted answer for one question: `request.form.get(f"question_i")`,
replaced by the sentinel when absent or empty (`if not user_answer`). -/
def effAnswer : Option String → String
  | none => "No answer selected"
  | some "" => "No answer selected"
  | some a => a

/-- One iteration of the grading loop (lines 308-339).  `ans` is the raw
form value for this question, `ex` the outcome of the per-question
explanation call to the generation service (`none` = exception, caught
and replaced by the fallback string). -/
def gradeOne (q : Question) (ans ex : Option String) : AnsweredQuestion :=
  let user_answer := effAnswer ans
  { question := q.question
    options := q.options
    correct_answer := q.correct_answer
    user_answer := user_answer
    is_correct := user_answer == q.correct_answer
    explanation := match ex with
      | some t => t
      | none => "Explanation not available." }

/-- `GET /quiz` (lines 296-301, 365): redirect to the entry point when no
questions are stored, otherwise render them. -/
def quiz_get (s : Session) : QuizResult :=
  match s.questions with
  | none => .redirectIndex
  | some questions => .renderQuiz questions

/-- `POST /quiz` (lines 296-359): grade every stored question against the
submitted form, store the graded answers, score and total in the session,
and render the scoreboard.  `form i` is the value of field `question_i`,
`ex i` the outcome of the i-th explanation service call. -/
def quiz_post (form ex : Nat → Option String) (s : Session) : QuizResult × Session :=
  match s.questions with
  | none => (.redirectIndex, s)
  | some questions =>
    let graded := questions.enum.map (fun p => gradeOne p.2 (form p.1) (ex p.1))
    let score := (graded.filter (fun a => a.is_correct)).length
    (.renderScoreboard graded score questions.length,
     { s with user_answers := some graded, score := some score,
              total := some questions.length })

/-- `create_pdf` (lines 614-643): renders the results PDF and returns the
path it wrote; the filename is the constant `results.pdf` joined to the
results folder, with no timestamp — every invocation writes the same path. -/
def create_pdf (_user_answers : List AnsweredQuestion) (_score _total : Nat) : String :=
  "results/results.pdf"

/-- The study-notes filename written by the scoreboard and
`generate_notes` routes (lines 456-460, 596-600):
`f'study_notes_{timestamp}.pdf'` with `timestamp = str(int(time.time()))`. -/
def notes_filename (timestamp : Nat) : String :=
  "study_notes_" ++ toString timestamp ++ ".pdf"

/-! ## Spec-side definitions, for refinement comparison -/

/-- Modelled from the spec: "lines 1-4 are options A-D, each with a fixed
2-character prefix (\"A)\", etc.) stripped" — the option text an MCQ block
line denotes according to the spec's words, as opposed to the code's
3-character slice `lines[k][3:].strip()`. -/
def specOptionText (line : List Char) : String :=
  ⟨pyStrip (line.drop 2)⟩

/-! ## Helper lemmas -/

/-- A block whose correct-answer line reduces to a single character `c`
with `61 ≤ c ≤ 68` (that is, from `=` up to `D`) parses successfully:
Python evaluates `options[ord(c) - 65]`, where an index in `[-4, -1]`
wraps around to the end of the 4-element option list. -/
theorem parseBlock_letter (b l0 l1 l2 l3 l4 l5 : List Char) (rest : List (List Char)) (c : Char)
    (hb : pyStrip b ≠ [])
    (hl : linesOf b = l0 :: l1 :: l2 :: l3 :: l4 :: l5 :: rest)
    (hc : pyUpper (pyStrip (pyReplace l5 ("Correct Answer:".data) [])) = [c])
    (h1 : 61 ≤ c.toNat) (h2 : c.toNat ≤ 68) :
    parseBlock b = .ok (some
      { question := ⟨pyStrip (pyReplace l0 ("Question:".data) [])⟩,
        options := [(⟨pyStrip (l1.drop 3)⟩ : String), ⟨pyStrip (l2.drop 3)⟩,
                    ⟨pyStrip (l3.drop 3)⟩, ⟨pyStrip (l4.drop 3)⟩],
        correct_answer := [(⟨pyStrip (l1.drop 3)⟩ : String), ⟨pyStrip (l2.drop 3)⟩,
                    ⟨pyStrip (l3.drop 3)⟩, ⟨pyStrip (l4.drop 3)⟩].getD ((c.toNat - 61) % 4) "" }) := by
  unfold parseBlock
  rw [if_neg hb, hl]
  simp only [parseLines]
  rw [hc]
  simp only [pyOrd]
  have h3 : c.toNat = 61 ∨ c.toNat = 62 ∨ c.toNat = 63 ∨ c.toNat = 64 ∨
      c.toNat = 65 ∨ c.toNat = 66 ∨ c.toNat = 67 ∨ c.toNat = 68 := by omega
  rcases h3 with h | h | h | h | h | h | h | h <;>
    simp [h, pyListIndex]

/-! ## Claim theorems -/

/-- Claim C1: for every well-formed MCQ block — at least 6 non-empty trimmed
lines, and a correct-answer line that (after stripping the
`Correct Answer:` label and uppercasing) is a valid letter `A`-`D` — the
parser produces a `Question` whose `correct_answer` field is the option
*text* at the letter's zero-based alphabetic index (`A` ↦ 0 … `D` ↦ 3),
not the letter itself. -/
theorem c1_correct_answer_is_option_at_letter_index
    (b l0 l1 l2 l3 l4 l5 : List Char) (rest : List (List Char)) (c : Char)
    (hb : pyStrip b ≠ [])
    (hl : linesOf b = l0 :: l1 :: l2 :: l3 :: l4 :: l5 :: rest)
    (hc : pyUpper (pyStrip (pyReplace l5 ("Correct Answer:".data) [])) = [c])
    (h1 : 'A'.toNat ≤ c.toNat) (h2 : c.toNat ≤ 'D'.toNat) :
    ∃ q : Question, parseBlock b = .ok (some q) ∧
      q.options.length = 4 ∧
      q.correct_answer = q.options.getD (c.toNat - 'A'.toNat) "" := by
  have h1' : 65 ≤ c.toNat := h1
  have h2' : c.toNat ≤ 68 := h2
  refine ⟨_, parseBlock_letter b l0 l1 l2 l3 l4 l5 rest c hb hl hc (by omega) h2', rfl, ?_⟩
  show _ = List.getD _ (c.toNat - 65) _
  have : (c.toNat - 61) % 4 = c.toNat - 65 := by omega
  rw [this]

/-- Witness for C1 at a concrete block with correct-answer letter `B`. -/
theorem c1_witness :
    ∃ q : Question,
      parseBlock ("Question: Which city?\nA) Paris\nB) Rome\nC) Berlin\nD) Madrid\nCorrect Answer: B").data
        = .ok (some q) ∧
      q.options.length = 4 ∧
      q.correct_answer = q.options.getD 1 "" :=
  c1_correct_answer_is_option_at_letter_index
    ("Question: Which city?\nA) Paris\nB) Rome\nC) Berlin\nD) Madrid\nCorrect Answer: B").data
    ("Question: Which city?").data ("A) Paris").data ("B) Rome").data ("C) Berlin").data
    ("D) Madrid").data ("Correct Answer: B").data [] 'B'
    (by decide) (by decide) (by decide) (by decide) (by decide)

/-- Claim C10, counterexample: the claim quantifies over *every* single
character below `A`, but for a character below `=` (code 61) the negative
index `ord(c) - 65` is below `-4` and Python raises `IndexError` instead
of selecting an option: at `!` (code 33) the parser raises on a block with
6 well-formed lines, so it neither "silently selects an option" nor
avoids raising. -/
theorem c10_counterexample :
    parseBlock ("Question: Q\nA) a\nB) b\nC) c\nD) d\nCorrect Answer: !").data
      = .error "IndexError: list index out of range" ∧
    ('!'.toNat < 'A'.toNat ∧ pyUpper ['!'] = ['!']) := by
  constructor
  · decide
  · decide

/-- Claim C10 (amended): restricted to the characters from `=` (code 61)
to `@` (code 64) — still below `A` after label stripping and uppercasing —
the parser neither drops the block nor raises: the negative index
`ord(c) - 65 ∈ [-4, -1]` wraps around and selects option
`4 + (ord(c) - 65)`, i.e. option `ord(c) - 61`, from the end of the list;
in particular `@` yields option D.  Characters below `=` instead raise
`IndexError` (see the counterexample). -/
theorem c10_low_letter_wraps_to_option_from_end
    (b l0 l1 l2 l3 l4 l5 : List Char) (rest : List (List Char)) (c : Char)
    (hb : pyStrip b ≠ [])
    (hl : linesOf b = l0 :: l1 :: l2 :: l3 :: l4 :: l5 :: rest)
    (hc : pyUpper (pyStrip (pyReplace l5 ("Correct Answer:".data) [])) = [c])
    (h1 : '='.toNat ≤ c.toNat) (h2 : c.toNat ≤ '@'.toNat) :
    ∃ q : Question, parseBlock b = .ok (some q) ∧
      q.options.length = 4 ∧
      q.correct_answer = q.options.getD (c.toNat - '='.toNat) "" := by
  have h1' : 61 ≤ c.toNat := h1
  have h2' : c.toNat ≤ 64 := h2
  refine ⟨_, parseBlock_letter b l0 l1 l2 l3 l4 l5 rest c hb hl hc h1' (by omega), rfl, ?_⟩
  show _ = List.getD _ (c.toNat - 61) _
  have : (c.toNat - 61) % 4 = c.toNat - 61 := by omega
  rw [this]

/-- Witness for the amended C10 at `@`: the parser accepts the block and
option D (`"d"`) becomes the correct answer. -/
theorem c10_witness :
    ∃ q : Question,
      parseBlock ("Question: Q\nA) a\nB) b\nC) c\nD) d\nCorrect Answer: @").data
        = .ok (some q) ∧
      q.options.length = 4 ∧
      q.correct_answer = q.options.getD 3 "" :=
  c10_low_letter_wraps_to_option_from_end
    ("Question: Q\nA) a\nB) b\nC) c\nD) d\nCorrect Answer: @").data
    ("Question: Q").data ("A) a").data ("B) b").data ("C) c").data
    ("D) d").data ("Correct Answer: @").data [] '@'
    (by decide) (by decide) (by decide) (by decide) (by decide)

/-- `str.strip()` ignores a leading whitespace character. -/
theorem pyStrip_cons_space (w : Char) (r : List Char) (hw : pyIsSpace w = true) :
    pyStrip (w :: r) = pyStrip r := by
  simp [pyStrip, List.dropWhile_cons, hw]

/-- Claim C8, counterexample: the code slices three characters off each
option line (`lines[k][3:]`), not a 2-character prefix followed by a trim.
On the block line `A)Paris` — a well-formed block by the parser's own
acceptance criteria — the claim predicts option text `Paris` (2-character
prefix `A)` stripped, remainder trimmed, per `specOptionText`) but the
parser produces `aris`. -/
theorem c8_counterexample :
    parseBlock ("Question: Q\nA)Paris\nB) Rome\nC) Berlin\nD) Madrid\nCorrect Answer: B").data
      = .ok (some { question := "Q", options := ["aris", "Rome", "Berlin", "Madrid"],
                    correct_answer := "Rome" }) ∧
    specOptionText ("A)Paris").data = "Paris" ∧
    ("aris" : String) ≠ "Paris" := by
  refine ⟨by decide, by decide, by decide⟩

/-- Claim C8 (amended): each of the four option texts equals the
corresponding block line with its first *three* characters sliced off and
the remainder trimmed; when the character right after the 2-character
prefix (`A)` etc.) is whitespace — the canonical `X) text` layout — this
coincides with the spec's description, stripping the 2-character prefix
and trimming the remainder (`specOptionText`). -/
theorem c8_options_strip_prefix
    (b l0 l1 l2 l3 l4 l5 : List Char) (rest : List (List Char)) (c : Char)
    (r1 r2 r3 r4 : List Char) (w1 w2 w3 w4 : Char)
    (hb : pyStrip b ≠ [])
    (hl : linesOf b = l0 :: l1 :: l2 :: l3 :: l4 :: l5 :: rest)
    (hc : pyUpper (pyStrip (pyReplace l5 ("Correct Answer:".data) [])) = [c])
    (h1 : 'A'.toNat ≤ c.toNat) (h2 : c.toNat ≤ 'D'.toNat)
    (hl1 : l1 = 'A' :: ')' :: w1 :: r1) (hw1 : pyIsSpace w1 = true)
    (hl2 : l2 = 'B' :: ')' :: w2 :: r2) (hw2 : pyIsSpace w2 = true)
    (hl3 : l3 = 'C' :: ')' :: w3 :: r3) (hw3 : pyIsSpace w3 = true)
    (hl4 : l4 = 'D' :: ')' :: w4 :: r4) (hw4 : pyIsSpace w4 = true) :
    ∃ q : Question, parseBlock b = .ok (some q) ∧
      q.options = [specOptionText l1, specOptionText l2,
                   specOptionText l3, specOptionText l4] := by
  have h1' : 65 ≤ c.toNat := h1
  have h2' : c.toNat ≤ 68 := h2
  refine ⟨_, parseBlock_letter b l0 l1 l2 l3 l4 l5 rest c hb hl hc (by omega) h2', ?_⟩
  subst hl1 hl2 hl3 hl4
  simp only [specOptionText, List.drop]
  rw [pyStrip_cons_space w1 r1 hw1, pyStrip_cons_space w2 r2 hw2,
      pyStrip_cons_space w3 r3 hw3, pyStrip_cons_space w4 r4 hw4]

/-- Witness for the amended C8 at a canonical block. -/
theorem c8_witness :
    ∃ q : Question,
      parseBlock ("Question: Which city?\nA) Paris\nB) Rome\nC) Berlin\nD) Madrid\nCorrect Answer: B").data
        = .ok (some q) ∧
      q.options = [specOptionText ("A) Paris").data, specOptionText ("B) Rome").data,
                   specOptionText ("C) Berlin").data, specOptionText ("D) Madrid").data] :=
  c8_options_strip_prefix
    ("Question: Which city?\nA) Paris\nB) Rome\nC) Berlin\nD) Madrid\nCorrect Answer: B").data
    ("Question: Which city?").data ("A) Paris").data ("B) Rome").data ("C) Berlin").data
    ("D) Madrid").data ("Correct Answer: B").data [] 'B'
    (" Paris".data.drop 1) (" Rome".data.drop 1) (" Berlin".data.drop 1) (" Madrid".data.drop 1)
    ' ' ' ' ' ' ' '
    (by decide) (by decide) (by decide) (by decide) (by decide)
    (by decide) (by decide) (by decide) (by decide) (by decide)
    (by decide) (by decide) (by decide)

/-- A block with fewer than 6 non-empty trimmed lines is skipped
(`len(lines) < 6: continue`). -/
theorem parseLines_short (l : List (List Char)) (h : l.length < 6) :
    parseLines l = .ok none := by
  rcases l with _ | ⟨a, _ | ⟨b, _ | ⟨c, _ | ⟨d, _ | ⟨e, _ | ⟨f, t⟩⟩⟩⟩⟩⟩ <;>
    first
      | rfl
      | (exfalso; simp only [List.length] at h; omega)

/-- A block with fewer than 6 lines is skipped whole, raising nothing. -/
theorem parseBlock_short (b : List Char) (h : (linesOf b).length < 6) :
    parseBlock b = .ok none := by
  unfold parseBlock
  split
  · rfl
  · exact parseLines_short _ h

/-- Claim C2, counterexample: parsing does NOT always survive a malformed
block.  A block with six well-formed-looking lines whose correct-answer
letter is `E` — not matching the expected `A`-`D` shape — makes
`options[ord('E') - 65]` evaluate to `options[4]`, raising an uncaught
`IndexError` that aborts the whole request instead of dropping the block. -/
theorem c2_counterexample :
    parse_mcqs "## MCQ\nQuestion: Q\nA) a\nB) b\nC) c\nD) d\nCorrect Answer: E"
      = .error "IndexError: list index out of range" := by
  decide

set_option maxRecDepth 4000 in
/-- Claim C2 (amended): a block with fewer than 6 non-empty trimmed lines
is silently dropped, never raising, so the output can be shorter than the
requested count — a raw text with 5 blocks of which 2 are short yields
exactly 3 `Question`s — and a raw text yielding zero questions makes the
`generate` handler return the distinguishable
`"No valid questions could be generated."` failure.  However, a block with
at least 6 lines whose correct-answer letter does not map into the option
list raises an uncaught error rather than being dropped (see the
counterexample). -/
theorem c2_short_blocks_dropped :
    (∀ (b : List Char) (bs : List (List Char)), (linesOf b).length < 6 →
        parseBlocks (b :: bs) = parseBlocks bs) ∧
    parse_mcqs ("## MCQ\nQuestion: q1\nA) a\nB) b\nC) c\nD) d\nCorrect Answer: A" ++
                "\n## MCQ\nmalformed\n## MCQ\nQuestion: q2\nA) a\nB) b\nC) c\nD) d\nCorrect Answer: B" ++
                "\n## MCQ\nalso bad\n## MCQ\nQuestion: q3\nA) a\nB) b\nC) c\nD) d\nCorrect Answer: C")
      = .ok [⟨"q1", ["a", "b", "c", "d"], "a"⟩,
             ⟨"q2", ["a", "b", "c", "d"], "b"⟩,
             ⟨"q3", ["a", "b", "c", "d"], "c"⟩] ∧
    generate { file := none, topic := some "history", difficulty := none,
               num_questions := some "5" }
        (some "## MCQ\nmalformed\n## MCQ\nalso bad") 0 Session.empty
      = .ok (.errorMsg "No valid questions could be generated. Please try again.",
             Session.empty) := by
  refine ⟨?_, by decide, by decide⟩
  intro b bs h
  have hb := parseBlock_short b h
  simp only [parseBlocks, hb]

/-- Witness for the amended C2: a concrete short block is dropped. -/
theorem c2_witness :
    (linesOf ("\nmalformed\n").data).length < 6 ∧
    parseBlocks [("\nmalformed\n").data,
                 ("\nQuestion: Q\nA) a\nB) b\nC) c\nD) d\nCorrect Answer: A").data]
      = parseBlocks [("\nQuestion: Q\nA) a\nB) b\nC) c\nD) d\nCorrect Answer: A").data] :=
  ⟨by decide, c2_short_blocks_dropped.1 _ _ (by decide)⟩

/-- A question whose correct answer text is literally the no-answer
sentinel; reachable through the parser (see `c3_counterexample`). -/
def sentinelQuestion : Question :=
  ⟨"Q", ["x", "No answer selected", "y", "z"], "No answer selected"⟩

/-- Claim C3, counterexample: an unanswered question does NOT always count
as incorrect.  The parser can store a quiz whose correct-answer text is
literally the sentinel `"No answer selected"`; submitting no answer for it
makes the sentinel compare equal to the stored correct answer, so the
score is 1, where the claim requires 0. -/
theorem c3_counterexample :
    parse_mcqs "## MCQ\nQuestion: Q\nA) x\nB) No answer selected\nC) y\nD) z\nCorrect Answer: B"
      = .ok [sentinelQuestion] ∧
    (quiz_post (fun _ => none) (fun _ => none)
        { Session.empty with questions := some [sentinelQuestion] }).1
      = .renderScoreboard
          [⟨"Q", ["x", "No answer selected", "y", "z"], "No answer selected",
            "No answer selected", true, "Explanation not available."⟩] 1 1 := by
  exact ⟨by decide, by decide⟩

/-- Claim C3 (amended): for every stored quiz and submission, the score is
the count of questions whose effective submitted answer — the form value,
or the sentinel `"No answer selected"` when the field is absent or empty —
exactly matches the stored correct-answer text, case-sensitively with no
further trimming.  An unanswered question therefore counts as incorrect
*unless* the stored correct-answer text is itself the sentinel string, in
which case the sentinel matches and the question counts as correct (see
the counterexample). -/
theorem c3_score_counts_exact_matches
    (s : Session) (qs : List Question) (form ex : Nat → Option String)
    (h : s.questions = some qs) :
    ∃ (ua : List AnsweredQuestion) (s' : Session),
      quiz_post form ex s
        = (.renderScoreboard ua
            (qs.enum.countP (fun p => effAnswer (form p.1) == p.2.correct_answer))
            qs.length, s') ∧
      (∀ i q, qs.get? i = some q → (form i).getD "" = "" →
        q.correct_answer ≠ "No answer selected" →
        effAnswer (form i) ≠ q.correct_answer) := by
  have hscore :
      ((qs.enum.map (fun p => gradeOne p.2 (form p.1) (ex p.1))).filter
          (fun a => a.is_correct)).length
        = qs.enum.countP (fun p => effAnswer (form p.1) == p.2.correct_answer) := by
    rw [← List.countP_eq_length_filter, List.countP_map]
    rfl
  refine ⟨qs.enum.map (fun p => gradeOne p.2 (form p.1) (ex p.1)),
    { s with
      user_answers := some (qs.enum.map (fun p => gradeOne p.2 (form p.1) (ex p.1))),
      score := some (qs.enum.countP (fun p => effAnswer (form p.1) == p.2.correct_answer)),
      total := some qs.length }, ?_, ?_⟩
  · simp only [quiz_post, h]
    rw [hscore]
  · intro i q hget hform hsent heq
    have hs : effAnswer (form i) = "No answer selected" := by
      cases hf : form i with
      | none => rfl
      | some a =>
        rw [hf] at hform
        simp only [Option.getD_some] at hform
        subst hform
        rfl
    rw [hs] at heq
    exact hsent heq.symm

/-- Witness for the amended C3 on a one-question quiz with no answer
submitted: score 0. -/
theorem c3_witness :
    ∃ (ua : List AnsweredQuestion) (s' : Session),
      quiz_post (fun _ => none) (fun _ => some "why")
          { Session.empty with questions := some [⟨"Q", ["a", "b", "c", "d"], "b"⟩] }
        = (.renderScoreboard ua
            (([(⟨"Q", ["a", "b", "c", "d"], "b"⟩ : Question)].enum).countP
              (fun p => effAnswer none == p.2.correct_answer)) 1, s') ∧
      (∀ i q, [(⟨"Q", ["a", "b", "c", "d"], "b"⟩ : Question)].get? i = some q →
        (none : Option String).getD "" = "" → q.correct_answer ≠ "No answer selected" →
        effAnswer none ≠ q.correct_answer) :=
  c3_score_counts_exact_matches
    { Session.empty with questions := some [⟨"Q", ["a", "b", "c", "d"], "b"⟩] }
    [⟨"Q", ["a", "b", "c", "d"], "b"⟩] (fun _ => none) (fun _ => some "why") rfl

/-- Claim C4: grading and scoreboard production always complete even when
every per-question explanation call to the generation service fails
(`ex = fun _ => none`): each explanation is replaced by the fallback
`"Explanation not available."` and the transition still renders the
scoreboard and stores the graded state — it is never aborted by an
explanation failure. -/
theorem c4_submission_survives_explanation_failures
    (s : Session) (qs : List Question) (form : Nat → Option String)
    (h : s.questions = some qs) :
    ∃ (ua : List AnsweredQuestion) (score : Nat),
      quiz_post form (fun _ => none) s
        = (.renderScoreboard ua score qs.length,
           { s with user_answers := some ua, score := some score,
                    total := some qs.length }) ∧
      ua.length = qs.length ∧
      ∀ a ∈ ua, a.explanation = "Explanation not available." := by
  refine ⟨qs.enum.map (fun p => gradeOne p.2 (form p.1) none),
    ((qs.enum.map (fun p => gradeOne p.2 (form p.1) none)).filter
      (fun a => a.is_correct)).length, ?_, ?_, ?_⟩
  · simp only [quiz_post, h]
  · simp
  · intro a ha
    rcases List.mem_map.mp ha with ⟨p, -, rfl⟩
    rfl

/-- Witness for C4: a concrete two-question quiz graded while the
explanation service fails on every call. -/
theorem c4_witness :
    ∃ (ua : List AnsweredQuestion) (score : Nat),
      quiz_post (fun i => if i = 0 then some "b" else none) (fun _ => none)
          { Session.empty with
            questions := some [⟨"Q1", ["a", "b", "c", "d"], "b"⟩,
                               ⟨"Q2", ["e", "f", "g", "h"], "e"⟩] }
        = (.renderScoreboard ua score 2,
           { Session.empty with
             questions := some [⟨"Q1", ["a", "b", "c", "d"], "b"⟩,
                                ⟨"Q2", ["e", "f", "g", "h"], "e"⟩],
             user_answers := some ua, score := some score, total := some 2 }) ∧
      ua.length = 2 ∧
      ∀ a ∈ ua, a.explanation = "Explanation not available." :=
  c4_submission_survives_explanation_failures
    { Session.empty with
      questions := some [⟨"Q1", ["a", "b", "c", "d"], "b"⟩,
                         ⟨"Q2", ["e", "f", "g", "h"], "e"⟩] }
    [⟨"Q1", ["a", "b", "c", "d"], "b"⟩, ⟨"Q2", ["e", "f", "g", "h"], "e"⟩]
    (fun i => if i = 0 then some "b" else none) rfl

/-- Claim C5, counterexample: a non-positive question count is NOT
rejected.  `int(request.form['num_questions'])` only guards against
non-integer input; with `num_questions = "0"` and a topic, the handler
proceeds all the way to a successful generation and redirects to the
quiz — no rejection, and the transition out of Idle happens. -/
theorem c5_counterexample :
    pyParseInt "0" = some 0 ∧
    generate { file := none, topic := some "math", difficulty := none,
               num_questions := some "0" }
        (some "## MCQ\nQuestion: Q\nA) a\nB) b\nC) c\nD) d\nCorrect Answer: A") 0 Session.empty
      = .ok (.redirectQuiz,
        { Session.empty with
          questions := some [⟨"Q", ["a", "b", "c", "d"], "a"⟩] }) := by
  exact ⟨by decide, by decide⟩

/-- Claim C5 (amended): a generation request with a non-*integer* count, or
with neither a usable file nor a non-empty topic, is rejected immediately
with a user-facing message; the handler's opening `session.clear()` leaves
the resulting session empty, so a request arriving in the Idle (empty)
session state causes no state change.  A non-positive integer count,
however, is not validated and does not by itself reject the transition
(see the counterexample). -/
theorem c5_invalid_input_rejected :
    (∀ (form : GenForm) (svc : Option String) (ts : Nat) (s0 : Session) (nq : String),
      form.num_questions = some nq → pyParseInt nq = none →
      generate form svc ts s0
        = .ok (.errorMsg "Please enter a valid number of questions.", Session.empty)) ∧
    (∀ (form : GenForm) (svc : Option String) (ts : Nat) (s0 : Session) (nq : String) (k : Int),
      form.num_questions = some nq → pyParseInt nq = some k →
      form.file = none → (form.topic = none ∨ form.topic = some "") →
      generate form svc ts s0
        = .ok (.errorMsg "Please provide either a file or a topic.", Session.empty)) := by
  constructor
  · intro form svc ts s0 nq hnq hp
    simp only [generate, hnq, hp]
  · intro form svc ts s0 nq k hnq hp hfile htopic
    rcases htopic with ht | ht
    · simp only [generate, hnq, hp, hfile, ht]
    · simp only [generate, hnq, hp, hfile, ht]
      simp

/-- Witness for the amended C5: both rejection branches at concrete
inputs, starting from the empty (Idle) session. -/
theorem c5_witness :
    generate { file := none, topic := some "math", difficulty := none,
               num_questions := some "abc" } none 0 Session.empty
      = .ok (.errorMsg "Please enter a valid number of questions.", Session.empty) ∧
    generate { file := none, topic := none, difficulty := none,
               num_questions := some "3" } none 0 Session.empty
      = .ok (.errorMsg "Please provide either a file or a topic.", Session.empty) :=
  ⟨c5_invalid_input_rejected.1 _ none 0 Session.empty "abc" rfl (by decide),
   c5_invalid_input_rejected.2 _ none 0 Session.empty "3" 3 rfl (by decide) rfl (Or.inl rfl)⟩

/-- Claim C6, counterexample: after a failed generation the session is NOT
free of all partial state.  A text file is uploaded and extracted, the
handler stores the saved file's path under `current_file`
(`session['current_file'] = file_path`, line 239) *before* calling the
generation service; when the service then fails, the error is returned
but the record of the uploaded file remains in the session. -/
theorem c6_counterexample :
    generate { file := some ⟨"notes.txt", some "hello"⟩, topic := none, difficulty := none,
               num_questions := some "3" } none 7 Session.empty
      = .ok (.errorMsg "Failed to generate MCQs. Please try again.",
        { Session.empty with current_file := some "uploads/7_notes.txt" }) ∧
    ({ Session.empty with current_file := some "uploads/7_notes.txt" } : Session).current_file
      ≠ none := by
  exact ⟨by decide, by decide⟩

/-- Claim C6 (amended): when generation fails after a successful file
upload and extraction — the service call fails or returns empty text, or
parsing yields zero questions — the handler returns an error message and
the session holds no question list and no extracted source text, but it
DOES retain the uploaded file's saved path under `current_file`, recorded
before the generation call. -/
theorem c6_failed_generation_keeps_file_record
    (form : GenForm) (f : UploadedFile) (content : String) (ts : Nat) (s0 : Session)
    (svc : Option String) (nq : String) (k : Int)
    (hnq : form.num_questions = some nq) (hk : pyParseInt nq = some k)
    (hfile : form.file = some f) (hext : f.extracted = some content) (hcne : content ≠ "")
    (hall : allowed_file f.filename = true)
    (hdiff : (form.difficulty.getD "easy") ∈ difficulty_keys)
    (hfail : svc = none ∨ svc = some "" ∨
             (∃ raw, svc = some raw ∧ raw ≠ "" ∧ parse_mcqs raw = .ok [])) :
    ∃ msg, generate form svc ts s0
        = .ok (.errorMsg msg,
          { Session.empty with
            current_file := some ("uploads/" ++ toString ts ++ "_" ++ f.filename) }) ∧
      ({ Session.empty with
         current_file := some ("uploads/" ++ toString ts ++ "_" ++ f.filename) } : Session).questions
        = none ∧
      ({ Session.empty with
         current_file := some ("uploads/" ++ toString ts ++ "_" ++ f.filename) } : Session).original_input_text
        = none := by
  have hmain : ∀ msg0 : String,
      afterInput
        { Session.empty with
          current_file := some ("uploads/" ++ toString ts ++ "_" ++ f.filename) }
        content true (form.difficulty.getD "easy") svc
        = .ok (.errorMsg msg0,
            { Session.empty with
              current_file := some ("uploads/" ++ toString ts ++ "_" ++ f.filename) }) →
      ∃ msg, generate form svc ts s0
        = .ok (.errorMsg msg,
          { Session.empty with
            current_file := some ("uploads/" ++ toString ts ++ "_" ++ f.filename) }) := by
    intro msg0 hai
    refine ⟨msg0, ?_⟩
    simp only [generate, hnq, hk, hfile, hall, hext, hcne]
    rw [if_pos trivial, if_pos hcne]
    exact hai
  rcases hfail with hsvc | hsvc | ⟨raw, hsvc, hraw, hparse⟩ <;> subst hsvc
  · obtain ⟨m, hm⟩ := hmain "Failed to generate MCQs. Please try again."
      (by simp only [afterInput, generate_mcqs, if_pos hdiff])
    exact ⟨m, hm, rfl, rfl⟩
  · obtain ⟨m, hm⟩ := hmain "Failed to generate MCQs. Please try again."
      (by simp only [afterInput, generate_mcqs, if_pos hdiff]; simp)
    exact ⟨m, hm, rfl, rfl⟩
  · obtain ⟨m, hm⟩ := hmain "No valid questions could be generated. Please try again."
      (by simp only [afterInput, generate_mcqs, if_pos hdiff, if_neg hraw, hparse])
    exact ⟨m, hm, rfl, rfl⟩

/-- Witness for the amended C6: a concrete failed generation after a
successful upload. -/
theorem c6_witness :
    ∃ msg, generate
        { file := some ⟨"doc.txt", some "body"⟩, topic := none, difficulty := none,
          num_questions := some "2" } none 5 Session.empty
        = .ok (.errorMsg msg,
          { Session.empty with
            current_file := some ("uploads/" ++ toString 5 ++ "_" ++ "doc.txt") }) ∧
      ({ Session.empty with
         current_file := some ("uploads/" ++ toString 5 ++ "_" ++ "doc.txt") } : Session).questions
        = none ∧
      ({ Session.empty with
         current_file := some ("uploads/" ++ toString 5 ++ "_" ++ "doc.txt") } : Session).original_input_text
        = none :=
  c6_failed_generation_keeps_file_record
    { file := some ⟨"doc.txt", some "body"⟩, topic := none, difficulty := none,
      num_questions := some "2" }
    ⟨"doc.txt", some "body"⟩ "body" 5 Session.empty none "2" 2
    rfl (by decide) rfl rfl (by decide) (by decide) (by decide) (Or.inl rfl)

/-- Any error-message outcome of `afterInput` hands back exactly the
session it was given: the generation-failure branches do not touch the
session. -/
theorem afterInput_errorMsg (s : Session) (content : String) (is_file : Bool) (d : String)
    (svc : Option String) (m : String) (s' : Session)
    (h : afterInput s content is_file d svc = .ok (.errorMsg m, s')) : s' = s := by
  unfold afterInput at h
  split at h
  · exact absurd h (by simp)
  · simp only [Except.ok.injEq, Prod.mk.injEq, GenResult.errorMsg.injEq] at h
    exact h.2.symm
  · split at h
    · simp only [Except.ok.injEq, Prod.mk.injEq, GenResult.errorMsg.injEq] at h
      exact h.2.symm
    · split at h
      · exact absurd h (by simp)
      · simp only [Except.ok.injEq, Prod.mk.injEq, GenResult.errorMsg.injEq] at h
        exact h.2.symm
      · exact absurd h (by simp)

/-- Claim C7, counterexample: plainly returning to the entry point does
NOT clear the session.  The `/` handler clears only when the query string
carries `clear=true`; visiting it with no such parameter leaves a
Submitted session intact, and a subsequent `GET /quiz` renders the stored
questions instead of redirecting to the entry point. -/
theorem c7_counterexample :
    index_route none
      { Session.empty with
        questions := some [⟨"Q", ["a", "b", "c", "d"], "a"⟩],
        user_answers := some [⟨"Q", ["a", "b", "c", "d"], "a", "a", true, "e"⟩],
        score := some 1, total := some 1 }
      = { Session.empty with
          questions := some [⟨"Q", ["a", "b", "c", "d"], "a"⟩],
          user_answers := some [⟨"Q", ["a", "b", "c", "d"], "a", "a", true, "e"⟩],
          score := some 1, total := some 1 } ∧
    quiz_get
      { Session.empty with
        questions := some [⟨"Q", ["a", "b", "c", "d"], "a"⟩],
        user_answers := some [⟨"Q", ["a", "b", "c", "d"], "a", "a", true, "e"⟩],
        score := some 1, total := some 1 }
      ≠ .redirectIndex := by
  exact ⟨rfl, by decide⟩

/-- Claim C7 (amended): the transitions that DO return the lifecycle to
Idle — the entry point visited with the explicit `clear=true` parameter,
the `/home` route, and any `/generate` request (which discards the prior
session unconditionally before doing anything else) — remove questions,
answers, score and total: the first two leave the empty session, whose
`GET /quiz` redirects to the entry point; `/generate` ignores the prior
session entirely, and whenever it ends in an error message the session it
leaves behind also makes `GET /quiz` redirect.  A plain entry-point visit
without `clear=true`, however, clears nothing (see the counterexample). -/
theorem c7_reset_clears_quiz_state :
    (∀ s : Session, index_route (some "true") s = Session.empty) ∧
    (∀ s : Session, home_route s = Session.empty) ∧
    (Session.empty.questions = none ∧ Session.empty.user_answers = none ∧
     Session.empty.score = none ∧ Session.empty.total = none) ∧
    quiz_get Session.empty = .redirectIndex ∧
    (∀ (form : GenForm) (svc : Option String) (ts : Nat) (s0 s1 : Session),
      generate form svc ts s0 = generate form svc ts s1) ∧
    (∀ (form : GenForm) (svc : Option String) (ts : Nat) (s0 : Session) (m : String)
        (s' : Session),
      generate form svc ts s0 = .ok (.errorMsg m, s') → quiz_get s' = .redirectIndex) := by
  refine ⟨fun s => rfl, fun s => rfl, ⟨rfl, rfl, rfl, rfl⟩, rfl, fun _ _ _ _ _ => rfl, ?_⟩
  intro form svc ts s0 m s' h
  unfold generate at h
  split at h
  · exact absurd h (by simp)
  · split at h
    · simp only [Except.ok.injEq, Prod.mk.injEq, GenResult.errorMsg.injEq] at h
      rw [← h.2]
      rfl
    · split at h
      · split at h
        · split at h
          · rw [afterInput_errorMsg _ _ _ _ _ _ _ h]
            rfl
          · simp only [Except.ok.injEq, Prod.mk.injEq, GenResult.errorMsg.injEq] at h
            rw [← h.2]
            rfl
        · simp only [Except.ok.injEq, Prod.mk.injEq, GenResult.errorMsg.injEq] at h
          rw [← h.2]
          rfl
      · split at h
        · split at h
          · split at h
            · rw [afterInput_errorMsg _ _ _ _ _ _ _ h]
              rfl
            · simp only [Except.ok.injEq, Prod.mk.injEq, GenResult.errorMsg.injEq] at h
              rw [← h.2]
              rfl
          · simp only [Except.ok.injEq, Prod.mk.injEq, GenResult.errorMsg.injEq] at h
            rw [← h.2]
            rfl
        · simp only [Except.ok.injEq, Prod.mk.injEq, GenResult.errorMsg.injEq] at h
          rw [← h.2]
          rfl

/-- Witness for the amended C7: a failed generation attempt arriving in a
Submitted session leaves a session from which `GET /quiz` redirects. -/
theorem c7_witness :
    generate { file := none, topic := some "t", difficulty := none, num_questions := some "x" }
        none 0
        { Session.empty with
          questions := some [⟨"Q", ["a", "b", "c", "d"], "a"⟩],
          score := some 1, total := some 1 }
      = .ok (.errorMsg "Please enter a valid number of questions.", Session.empty) ∧
    quiz_get Session.empty = .redirectIndex :=
  ⟨by decide,
   c7_reset_clears_quiz_state.2.2.2.2.2
     { file := none, topic := some "t", difficulty := none, num_questions := some "x" }
     none 0
     { Session.empty with
       questions := some [⟨"Q", ["a", "b", "c", "d"], "a"⟩],
       score := some 1, total := some 1 }
     "Please enter a valid number of questions." Session.empty (by decide)⟩

/-! ## Decimal representation is injective

`notes_filename` embeds `str(int(time.time()))`, i.e. `Nat.repr`, in the
filename; the claims about filename uniqueness need `Nat.repr` to be
injective, which core and Mathlib do not provide, so it is proved here by
decoding the digit string back to the number. -/

/-- Decode a decimal digit string (as produced by `Nat.toDigits 10`). -/
def decDigitsVal (ds : List Char) : Nat :=
  ds.foldl (fun a c => a * 10 + (c.toNat - 48)) 0

theorem decDigitsVal_append_digit (xs : List Char) (d : Char) :
    decDigitsVal (xs ++ [d]) = decDigitsVal xs * 10 + (d.toNat - 48) := by
  simp [decDigitsVal, List.foldl_append]

theorem digitChar_val (m : Nat) (h : m < 10) : (Nat.digitChar m).toNat - 48 = m := by
  interval_cases m <;> decide

/-- `Nat.toDigitsCore` threads its accumulator purely by appending. -/
theorem toDigitsCore_acc (b : Nat) (f : Nat) :
    ∀ (n : Nat) (acc : List Char),
      Nat.toDigitsCore b f n acc = Nat.toDigitsCore b f n [] ++ acc := by
  induction f with
  | zero => intro n acc; simp [Nat.toDigitsCore]
  | succ f ih =>
    intro n acc
    simp only [Nat.toDigitsCore]
    by_cases h : n / b = 0
    · simp [h]
    · rw [if_neg h, if_neg h, ih (n / b) (Nat.digitChar (n % b) :: acc),
          ih (n / b) (Nat.digitChar (n % b) :: [])]
      simp

/-- Decoding the digits of `n` (with sufficient fuel) recovers `n`. -/
theorem toDigitsCore_val (f : Nat) :
    ∀ n, n < f → decDigitsVal (Nat.toDigitsCore 10 f n []) = n := by
  induction f with
  | zero => intro n h; omega
  | succ f ih =>
    intro n h
    simp only [Nat.toDigitsCore]
    by_cases h0 : n / 10 = 0
    · rw [if_pos h0]
      have hm : n % 10 < 10 := Nat.mod_lt _ (by omega)
      have hv : decDigitsVal [Nat.digitChar (n % 10)]
          = (Nat.digitChar (n % 10)).toNat - 48 := by
        simp [decDigitsVal]
      rw [hv, digitChar_val _ hm]
      omega
    · rw [if_neg h0, toDigitsCore_acc, decDigitsVal_append_digit,
          ih _ (by omega), digitChar_val _ (Nat.mod_lt _ (by omega))]
      omega

/-- `Nat.repr` is injective: distinct numbers print as distinct strings. -/
theorem nat_repr_injective (m n : Nat) (h : Nat.repr m = Nat.repr n) : m = n := by
  have hd : Nat.toDigits 10 m = Nat.toDigits 10 n := by
    have := congrArg String.data h
    simpa [Nat.repr, List.asString] using this
  have hm := toDigitsCore_val (m + 1) m (by omega)
  have hn := toDigitsCore_val (n + 1) n (by omega)
  calc m = decDigitsVal (Nat.toDigits 10 m) := hm.symm
    _ = decDigitsVal (Nat.toDigits 10 n) := by rw [hd]
    _ = n := hn

/-- Claim C9, counterexample: the results PDF is NOT written under a
timestamp-suffixed, per-invocation-fresh filename.  `create_pdf` joins the
constant name `results.pdf` to the results folder regardless of its
arguments, so two different submissions (here: different answer sets,
scores and totals) write the very same path, the second overwriting the
first. -/
theorem c9_counterexample :
    create_pdf [] 0 0
      = create_pdf [⟨"Q", ["a", "b", "c", "d"], "a", "a", true, "e"⟩] 1 1 ∧
    create_pdf [] 0 0 = "results/results.pdf" := by
  exact ⟨rfl, rfl⟩

/-- Claim C9 (amended): only the study-notes PDF gets a server-generated
timestamp-suffixed name — fresh as long as the second-resolution
timestamps differ — while the results PDF is always written to the fixed
path `results/results.pdf`, overwriting the previous results document on
every submission. -/
theorem c9_notes_timestamped_results_fixed :
    (∀ (ua : List AnsweredQuestion) (sc t : Nat), create_pdf ua sc t = "results/results.pdf") ∧
    (∀ t1 t2 : Nat, t1 ≠ t2 → notes_filename t1 ≠ notes_filename t2) := by
  refine ⟨fun _ _ _ => rfl, ?_⟩
  intro t1 t2 hne heq
  apply hne
  have hdata := congrArg String.data heq
  simp only [notes_filename, String.data_append] at hdata
  have h1 := List.append_cancel_right hdata
  have h2 := List.append_cancel_left h1
  exact nat_repr_injective t1 t2 (congrArg String.mk h2)

/-- Witness for the amended C9: two distinct timestamps give distinct
notes filenames. -/
theorem c9_witness :
    (1700000000 : Nat) ≠ 1700000001 ∧
    notes_filename 1700000000 ≠ notes_filename 1700000001 :=
  ⟨by decide, c9_notes_timestamped_results_fixed.2 1700000000 1700000001 (by decide)⟩

/-! ## Sanity checks: the embedding on concrete values -/

example : pyStrip "  ab ".data = "ab".data := by decide
example : pySplit "a## MCQb## MCQ".data "## MCQ".data = ["a".data, "b".data, "".data] := by decide
example : parse_mcqs "## MCQ\nQuestion: Q\nA) Paris\nB) Rome\nC) Berlin\nD) Madrid\nCorrect Answer: B"
    = .ok [{ question := "Q", options := ["Paris", "Rome", "Berlin", "Madrid"],
             correct_answer := "Rome" }] := by decide
example : parse_mcqs "## MCQ\nQuestion: Q\nA) a\nB) b\nC) c\nD) d\nCorrect Answer: E"
    = .error "IndexError: list index out of range" := by decide
example : parse_mcqs "## MCQ\nQuestion: Q\nA)Paris\nB) Rome\nC) Berlin\nD) Madrid\nCorrect Answer: B"
    = .ok [{ question := "Q", options := ["aris", "Rome", "Berlin", "Madrid"],
             correct_answer := "Rome" }] := by decide
example : parse_mcqs "## MCQ\nQuestion: Q\nA) a\nB) b\nC) c\nD) d\nCorrect Answer: @"
    = .ok [{ question := "Q", options := ["a", "b", "c", "d"],
             correct_answer := "d" }] := by decide
example : parse_mcqs "## MCQ\nQuestion: Q\nA) a\nB) b\nC) c\nD) d\nCorrect Answer: !"
    = .error "IndexError: list index out of range" := by decide
example : pyParseInt "  7 " = some 7 := by decide
example : pyParseInt "0" = some 0 := by decide
example : pyParseInt "-3" = some (-3) := by decide
example : pyParseInt "abc" = none := by decide
example : allowed_file "notes.txt" = true := by decide
example : allowed_file "notes" = false := by decide
example : generate { file := none, topic := some "math", difficulty := none,
                     num_questions := some "0" }
    (some "## MCQ\nQuestion: Q\nA) a\nB) b\nC) c\nD) d\nCorrect Answer: A") 0 Session.empty
    = .ok (.redirectQuiz,
      { Session.empty with
        questions := some [⟨"Q", ["a", "b", "c", "d"], "a"⟩] }) := by decide
example : generate { file := some { filename := "notes.txt", extracted := some "hello" },
                     topic := none, difficulty := none, num_questions := some "3" }
    none 7 Session.empty
    = .ok (.errorMsg "Failed to generate MCQs. Please try again.",
      { Session.empty with current_file := some "uploads/7_notes.txt" }) := by decide

end QuizApp
